/-
Verification of the student-service request-handling layer
(`src/application/app.py` of keep-coding-final-project).

The Python module defines a FastAPI application with four endpoints
(health check, greeting, student creation, joke proxy), Prometheus
request counters, and a pydantic data model (`StudentModel`) whose
identifier field is a `PyObjectId` (a BSON `ObjectId` subclass).

This file shallowly embeds the request-handling layer:

* machine-level values: identifiers are modelled as their hexadecimal
  strings, `gpa : float` is modelled as `ℚ` (the only operation the code
  performs on it is the exact comparison `gpa <= 4.0`, which is the same
  on `ℚ` for the inputs in scope);
* the document store (MongoDB accessed through motor) is modelled as a
  list of documents with the `insert_one` / `find_one` operations the
  handlers use, including duplicate-key failure and store-side id
  generation;
* the Prometheus counters are explicit state threaded through each
  handler;
* pydantic validation of a request body into a `StudentModel` is
  modelled field by field from the field declarations of the class.
-/
import Mathlib

namespace StudentApp

/-! ### Identifiers

`PyObjectId.validate` (app.py lines 33-47) accepts a value iff
`ObjectId.is_valid(value)`; for a string this means exactly 24
hexadecimal characters.  We model identifiers by their hex strings. -/

/-- `bson.ObjectId.is_valid` on a string: 24 hexadecimal characters. -/
def ObjectId.is_valid (s : String) : Bool :=
  s.length = 24 && s.toList.all (fun c =>
    c.isDigit || ('a' ≤ c && c ≤ 'f') || ('A' ≤ c && c ≤ 'F'))

/-- A BSON value usable in the `_id` slot of a stored document: either a
native `ObjectId` (held by its 24-hex representation) or a plain string.
The distinction matters: `jsonable_encoder` with
`json_encoders = \x7bObjectId: str\x7d` (app.py line 71) stores strings, while
the store itself would generate a native `ObjectId`. -/
inductive BsonId
  | oid (hex : String)
  | str (s : String)
deriving DecidableEq, Repr

/-! ### Documents and the store

Only student documents ever reach the collection, so a document is the
student field set with an optional `_id` (app.py lines 212-216; motor
`insert_one` adds a generated `ObjectId` when `_id` is absent). -/

/-- A document of the `students` MongoDB collection. -/
structure Document where
  idField : Option BsonId   -- the `_id` slot of the BSON document
  name : String
  email : String
  course : String
  gpa : ℚ
deriving DecidableEq, Repr

/-- The `students` collection: the documents in insertion order. -/
abbrev Store := List Document

/-- Errors a store call can raise (propagated unhandled by the service). -/
inductive MongoError
  | duplicateKey
deriving DecidableEq, Repr

/-- `collection.insert_one(doc)`: uses the document's `_id` if present,
otherwise a store-generated fresh `ObjectId` (`storeGenId`); fails on a
duplicate `_id`; returns the new store and the `inserted_id`. -/
def insert_one (store : Store) (storeGenId : String) (doc : Document) :
    Except MongoError (Store × BsonId) :=
  let i := doc.idField.getD (BsonId.oid storeGenId)
  if store.any (fun d => d.idField = some i) then
    Except.error MongoError.duplicateKey
  else
    Except.ok (store ++ [{ doc with idField := some i }], i)

/-- `collection.find_one(\x7b"_id": i\x7d)`: the first document whose `_id`
equals `i`, or nothing. -/
def find_one (store : Store) (i : BsonId) : Option Document :=
  store.find? (fun d => d.idField = some i)

/-! ### The data model / validator

`StudentModel` (app.py lines 55-79): `id : PyObjectId` with
`default_factory=PyObjectId` and alias `_id`; `name : str`,
`email : EmailStr`, `course : str` all required with no further
constraint; `gpa : float` required with `le=4.0`. -/

/-- A validated `StudentModel` instance.  `id` holds the hex string of
the `PyObjectId`. -/
structure StudentModel where
  id : String
  name : String
  email : String
  course : String
  gpa : ℚ
deriving DecidableEq, Repr

/-- The inbound JSON body of `POST /api/student` before validation:
every field may be absent.  Field values are already of the primitive
shape the claims need (type errors such as a non-numeric `gpa` are not
in scope of any claim). -/
structure StudentPayload where
  idField : Option String   -- the optional `_id` member of the JSON body
  name : Option String
  email : Option String
  course : Option String
  gpa : Option ℚ
deriving DecidableEq, Repr

/-- One entry of the structured 422 validation error body: which field
failed and how. -/
inductive FieldError
  | id_invalid_objectid    -- `PyObjectId.validate` raised "Invalid objectid"
  | name_missing           -- `name` is `Field(...)`: required
  | email_missing
  | email_invalid          -- `EmailStr` rejected the value
  | course_missing
  | gpa_missing
  | gpa_gt_limit           -- `le=4.0` violated
deriving DecidableEq, Repr

/-- Abstraction of pydantic's `EmailStr` acceptance: one `@` separating a
non-empty local part from a domain made of non-empty dot-separated
labels, at least two of them.  No claim depends on the exact address
grammar; they only ever assume a payload's email is accepted. -/
def email_valid (s : String) : Bool :=
  let cs := s.toList
  let lp := cs.takeWhile (fun c => c ≠ '@')
  match cs.dropWhile (fun c => c ≠ '@') with
  | '@' :: dom =>
      !lp.isEmpty && !dom.isEmpty && dom.all (fun c => c ≠ '@') &&
        dom.contains '.' &&
        dom.head? ≠ some '.' && dom.getLast? ≠ some '.' &&
        (dom.zip dom.tail).all (fun q => !(q.1 = '.' && q.2 = '.'))
  | _ => false

/-- Validation of the `id` field: absent means `default_factory` runs
(producing the fresh `ObjectId` `genId` inside the service); present
means `PyObjectId.validate`. -/
def id_check (genId : String) : Option String → Except FieldError String
  | none => Except.ok genId
  | some s =>
      if ObjectId.is_valid s then Except.ok s
      else Except.error FieldError.id_invalid_objectid

/-- Validation of `name : str = Field(...)`: required, no other
constraint (the empty string is a `str`). -/
def name_check : Option String → Except FieldError String
  | none => Except.error FieldError.name_missing
  | some s => Except.ok s

/-- Validation of `email : EmailStr = Field(...)`. -/
def email_check : Option String → Except FieldError String
  | none => Except.error FieldError.email_missing
  | some s =>
      if email_valid s then Except.ok s
      else Except.error FieldError.email_invalid

/-- Validation of `course : str = Field(...)`: required, no other
constraint. -/
def course_check : Option String → Except FieldError String
  | none => Except.error FieldError.course_missing
  | some s => Except.ok s

/-- Validation of `gpa : float = Field(..., le=4.0)`. -/
def gpa_check : Option ℚ → Except FieldError ℚ
  | none => Except.error FieldError.gpa_missing
  | some g => if g ≤ 4 then Except.ok g else Except.error FieldError.gpa_gt_limit

/-- The errors contributed by one field check. -/
def errsOf {α : Type} : Except FieldError α → List FieldError
  | Except.ok _ => []
  | Except.error e => [e]

/-- Pydantic parsing of the request body into a `StudentModel`:
validate every field, collect all field errors; on any error the
framework answers 422 with the error list and the handler never runs.
`genId` is the `ObjectId` the `default_factory` would produce. -/
def StudentModel.validate (genId : String) (p : StudentPayload) :
    Except (List FieldError) StudentModel :=
  match id_check genId p.idField, name_check p.name, email_check p.email,
      course_check p.course, gpa_check p.gpa with
  | Except.ok i, Except.ok n, Except.ok e, Except.ok c, Except.ok g =>
      Except.ok { id := i, name := n, email := e, course := c, gpa := g }
  | i, n, e, c, g =>
      Except.error (errsOf i ++ errsOf n ++ errsOf e ++ errsOf c ++ errsOf g)

/-- `jsonable_encoder(student)` (app.py line 212): the model rendered as
a plain JSON document, keys by alias (`_id`), the `PyObjectId` turned
into its string by `json_encoders = \x7bObjectId: str\x7d`. -/
def jsonable_encoder (st : StudentModel) : Document :=
  { idField := some (BsonId.str st.id)
    name := st.name
    email := st.email
    course := st.course
    gpa := st.gpa }

/-! ### Metrics counters

app.py lines 17-21: one global counter and one per endpoint, incremented
by `.inc()` (add one) inside each handler. -/

/-- The five Prometheus counters, named as in app.py lines 17-21. -/
structure Counters where
  server_requests_total : ℕ       -- REQUESTS
  healthcheck_requests_total : ℕ  -- HEALTHCHECK_REQUESTS
  main_requests_total : ℕ         -- MAIN_ENDPOINT_REQUESTS
  students_create_total : ℕ       -- STUDENT_CREATE_REQUESTS
  joke_requests_total : ℕ         -- JOKE_ENDPOINT_REQUESTS
deriving DecidableEq, Repr

/-! ### Request handlers -/

/-- `read_main` (app.py lines 181-189): increment `REQUESTS` and
`MAIN_ENDPOINT_REQUESTS`, answer 200 with `\x7b"msg": "Hello World"\x7d`
(the body modelled as its single key/value pair). -/
def read_main (c : Counters) : Counters × ℕ × (String × String) :=
  let c := { c with server_requests_total := c.server_requests_total + 1 }
  let c := { c with main_requests_total := c.main_requests_total + 1 }
  (c, 200, ("msg", "Hello World"))

/-- `health_check` (app.py lines 191-197): increment `REQUESTS` and
`HEALTHCHECK_REQUESTS`, answer 200 with `\x7b"health": "ok"\x7d`. -/
def health_check (c : Counters) : Counters × ℕ × (String × String) :=
  let c := { c with server_requests_total := c.server_requests_total + 1 }
  let c := { c with healthcheck_requests_total := c.healthcheck_requests_total + 1 }
  (c, 200, ("health", "ok"))

/-- Outcome of a `POST /api/student` request. -/
inductive CreateOutcome
  | created (body : Option Document) (inserted_id : BsonId)
      -- 201, `JSONResponse(content=created_student)` where
      -- `created_student` is the `find_one` result
  | validationError (errs : List FieldError)
      -- 422, produced by the validator layer before the handler runs
  | storeFault (e : MongoError)
      -- the store call raised; propagates as an unhandled fault (500)
deriving DecidableEq, Repr

/-- The HTTP status each outcome carries. -/
def CreateOutcome.status : CreateOutcome → ℕ
  | CreateOutcome.created _ _ => 201
  | CreateOutcome.validationError _ => 422
  | CreateOutcome.storeFault _ => 500

/-- State after a `POST /api/student` request: counters, store, outcome. -/
structure CreateStep where
  counters : Counters
  store : Store
  outcome : CreateOutcome
deriving DecidableEq, Repr

/-- `create_student` (app.py lines 199-218), the handler body, which
receives the already-validated `StudentModel`: increment
`STUDENT_CREATE_REQUESTS` then `REQUESTS`, encode the model with
`jsonable_encoder`, `insert_one` it, `find_one` the document back by the
`inserted_id` the insert returned, and answer 201 with the re-read
document.  `storeGenId` is the fresh `ObjectId` the store would coin if
it had to generate an `_id`. -/
def create_student (c : Counters) (store : Store) (storeGenId : String)
    (student : StudentModel) : CreateStep :=
  let c := { c with students_create_total := c.students_create_total + 1 }
  let c := { c with server_requests_total := c.server_requests_total + 1 }
  let student_doc := jsonable_encoder student
  match insert_one store storeGenId student_doc with
  | Except.error e => { counters := c, store := store, outcome := CreateOutcome.storeFault e }
  | Except.ok (store2, inserted_id) =>
      { counters := c, store := store2
        outcome := CreateOutcome.created (find_one store2 inserted_id) inserted_id }

/-- The full route behaviour of `POST /api/student`: FastAPI/pydantic
validate the body into a `StudentModel` (422 on failure, without running
the handler), then `create_student` runs.  `genId` is the `ObjectId` the
model's `default_factory` produces for this request. -/
def handle_create (c : Counters) (store : Store) (genId storeGenId : String)
    (p : StudentPayload) : CreateStep :=
  match StudentModel.validate genId p with
  | Except.error errs =>
      { counters := c, store := store, outcome := CreateOutcome.validationError errs }
  | Except.ok st => create_student c store storeGenId st

/-! ### The joke endpoint

`tell_joke` (app.py lines 220-232).  The body increments `REQUESTS` and
`JOKE_ENDPOINT_REQUESTS` and then evaluates `requests.get(url)` — but the
module never imports `requests` (app.py lines 5-14), so that expression
raises `NameError: name 'requests' is not defined` on every invocation
and the upstream response is never consulted.  (Moreover the method is
declared without `self` yet registered as the bound method
`self.tell_joke`, so the route call already raises a `TypeError`.)  We
embed the body as written: the increments happen, then the unbound name
is evaluated. -/

/-- What the upstream joke API would answer. -/
structure UpstreamResponse where
  status_code : ℕ
  setup : String
  punchline : String
deriving DecidableEq, Repr

/-- A Python runtime error escaping a handler (answered as a 500). -/
inductive PyRuntimeError
  | nameError (name : String)
deriving DecidableEq, Repr

/-- Body of a successful joke response. -/
inductive JokeBody
  | joke (setup punchline : String)   -- \x7b"setup": ..., "punchline": ...\x7d
  | failed                            -- \x7b"error": "Failed to get a joke"\x7d
deriving DecidableEq, Repr

/-- `tell_joke` as written in app.py lines 220-232: the counters are
incremented (lines 222-223), then line 227 evaluates the unbound name
`requests`, raising `NameError` before the upstream is ever contacted. -/
def tell_joke (c : Counters) (_upstream : UpstreamResponse) :
    Counters × Except PyRuntimeError JokeBody :=
  let c := { c with server_requests_total := c.server_requests_total + 1 }
  let c := { c with joke_requests_total := c.joke_requests_total + 1 }
  (c, Except.error (PyRuntimeError.nameError "requests"))

/-- The logic of app.py lines 226-232 had `requests` been importable —
modelled to document the intended branching (non-200 upstream gives the
error body with the service's own 200 status): kept for reference in the
development, the shipped `tell_joke` never reaches it. -/
def tell_joke_logic (upstream : UpstreamResponse) : ℕ × JokeBody :=
  if upstream.status_code ≠ 200 then (200, JokeBody.failed)
  else (200, JokeBody.joke upstream.setup upstream.punchline)

/-! ### Sequences of handled requests

For the counter-monotonicity property we let the server process any
sequence of requests to the four registered routes. -/

/-- One inbound request, with the per-request environment each route
needs (fresh ids for student creation, the upstream answer for the joke
route). -/
inductive Request
  | health
  | hello
  | createStudent (genId storeGenId : String) (p : StudentPayload)
  | joke (upstream : UpstreamResponse)

/-- The process-wide mutable state the handlers touch: the counters and
the document store. -/
structure ServerState where
  counters : Counters
  store : Store

/-- Dispatch one request to its handler and keep the resulting state. -/
def apply_request (s : ServerState) : Request → ServerState
  | Request.health => { s with counters := (health_check s.counters).1 }
  | Request.hello => { s with counters := (read_main s.counters).1 }
  | Request.createStudent genId storeGenId p =>
      let r := handle_create s.counters s.store genId storeGenId p
      { counters := r.counters, store := r.store }
  | Request.joke u => { s with counters := (tell_joke s.counters u).1 }

/-- Process a sequence of requests in order. -/
def run_requests (s : ServerState) : List Request → ServerState
  | [] => s
  | r :: rs => run_requests (apply_request s r) rs

/-! ### Concrete values (the repository's own test vectors) -/

/-- All counters at process start. -/
def zeroCounters : Counters :=
  { server_requests_total := 0, healthcheck_requests_total := 0,
    main_requests_total := 0, students_create_total := 0,
    joke_requests_total := 0 }

/-- The `ObjectId` hex string used across the repository's test suite. -/
def testOid : String := "62422b3329661ce0eab2066f"

/-- A distinct hex string, standing for the fresh `ObjectId` the store
would coin if it had to generate an `_id` itself. -/
def storeOid : String := "ffffffffffffffffffffffff"

/-- The valid student payload of the test suite, with `_id` omitted. -/
def janePayload : StudentPayload :=
  { idField := none, name := some "Jane Doe", email := some "jdoe@example.com",
    course := some "Experiments, Science, and Fashion in Nanophotonics",
    gpa := some 3 }

/-- The validated model the service builds from `janePayload` when the
`default_factory` yields `testOid`. -/
def janeModel : StudentModel :=
  { id := testOid, name := "Jane Doe", email := "jdoe@example.com",
    course := "Experiments, Science, and Fashion in Nanophotonics", gpa := 3 }

/-- A payload identical to `janePayload` except that its gpa is 4.5,
above the `le=4.0` bound. -/
def overGpaPayload : StudentPayload :=
  { idField := none, name := some "Jane Doe", email := some "jdoe@example.com",
    course := some "Experiments, Science, and Fashion in Nanophotonics",
    gpa := some (9 / 2) }

/-- A payload whose name and course are both the empty string. -/
def emptyNameCoursePayload : StudentPayload :=
  { idField := none, name := some "", email := some "jdoe@example.com",
    course := some "", gpa := some 3 }

/-- A payload with an empty name but an ordinary course. -/
def emptyNamePayload : StudentPayload :=
  { idField := none, name := some "", email := some "jdoe@example.com",
    course := some "Algorithms", gpa := some 3 }

/-- A payload with a strongly negative gpa. -/
def negativeGpaPayload : StudentPayload :=
  { idField := none, name := some "Jane Doe", email := some "jdoe@example.com",
    course := some "Experiments, Science, and Fashion in Nanophotonics",
    gpa := some (-1000000) }

/-- Pointwise order on the counter vector. -/
def Counters.le (c d : Counters) : Prop :=
  c.server_requests_total ≤ d.server_requests_total ∧
  c.healthcheck_requests_total ≤ d.healthcheck_requests_total ∧
  c.main_requests_total ≤ d.main_requests_total ∧
  c.students_create_total ≤ d.students_create_total ∧
  c.joke_requests_total ≤ d.joke_requests_total

lemma Counters.le_refl (c : Counters) : Counters.le c c := by
  exact ⟨le_rfl, le_rfl, le_rfl, le_rfl, le_rfl⟩

lemma Counters.le_trans {a b c : Counters} (h₁ : Counters.le a b)
    (h₂ : Counters.le b c) : Counters.le a c := by
  obtain ⟨x1, x2, x3, x4, x5⟩ := h₁
  obtain ⟨y1, y2, y3, y4, y5⟩ := h₂
  exact ⟨x1.trans y1, x2.trans y2, x3.trans y3, x4.trans y4, x5.trans y5⟩

/-- The counters after `handle_create` dominate the counters before
(they are untouched on a validation error, incremented otherwise). -/
lemma handle_create_counters_le (c : Counters) (store : Store)
    (genId storeGenId : String) (p : StudentPayload) :
    Counters.le c (handle_create c store genId storeGenId p).counters := by
  unfold handle_create create_student
  cases StudentModel.validate genId p with
  | error errs => exact Counters.le_refl c
  | ok st =>
      cases h : insert_one store storeGenId (jsonable_encoder st) with
      | error e => refine ⟨?_, ?_, ?_, ?_, ?_⟩ <;> simp [h]
      | ok pr => refine ⟨?_, ?_, ?_, ?_, ?_⟩ <;> simp [h]

/-- One dispatched request never decreases any counter. -/
lemma apply_request_counters_le (s : ServerState) (r : Request) :
    Counters.le s.counters (apply_request s r).counters := by
  cases r with
  | health =>
      exact ⟨by simp [apply_request, health_check], by simp [apply_request, health_check],
        le_rfl, le_rfl, le_rfl⟩
  | hello =>
      refine ⟨by simp [apply_request, read_main], le_rfl,
        by simp [apply_request, read_main], le_rfl, le_rfl⟩
  | createStudent genId storeGenId p =>
      exact handle_create_counters_le s.counters s.store genId storeGenId p
  | joke u =>
      exact ⟨by simp [apply_request, tell_joke], le_rfl, le_rfl, le_rfl,
        by simp [apply_request, tell_joke]⟩

/-- Across any sequence of handled requests, every counter is
monotonically non-decreasing. -/
lemma run_requests_counters_le (rs : List Request) :
    ∀ s : ServerState, Counters.le s.counters (run_requests s rs).counters := by
  induction rs with
  | nil => intro s; exact Counters.le_refl s.counters
  | cons r rs ih =>
      intro s
      exact Counters.le_trans (apply_request_counters_le s r) (ih (apply_request s r))

/-! ### Helper lemmas -/

/-- If every field of the payload passes its check, validation succeeds
and builds the model from the payload values, the identifier defaulting
to the `ObjectId` the service's `default_factory` produced. -/
lemma validate_ok_of_fields (genId : String) (p : StudentPayload)
    (n e co : String) (g : ℚ)
    (hname : p.name = some n) (hemail : p.email = some e)
    (hcourse : p.course = some co) (hgpa : p.gpa = some g)
    (hev : email_valid e = true) (hg4 : g ≤ 4)
    (hid : ∀ s, p.idField = some s → ObjectId.is_valid s = true) :
    StudentModel.validate genId p =
      Except.ok { id := p.idField.getD genId, name := n, email := e,
                  course := co, gpa := g } := by
  cases hp : p.idField with
  | none =>
      simp [StudentModel.validate, id_check, name_check, email_check,
        course_check, gpa_check, hname, hemail, hcourse, hgpa, hev, hg4, hp]
  | some s =>
      have hs := hid s hp
      simp [StudentModel.validate, id_check, name_check, email_check,
        course_check, gpa_check, hname, hemail, hcourse, hgpa, hev, hg4, hp, hs]

/-- Inversion of a successful validation: every field check succeeded
with exactly the model's field values. -/
lemma validate_ok_inv (genId : String) (p : StudentPayload) (st : StudentModel)
    (hok : StudentModel.validate genId p = Except.ok st) :
    id_check genId p.idField = Except.ok st.id ∧
    name_check p.name = Except.ok st.name ∧
    email_check p.email = Except.ok st.email ∧
    course_check p.course = Except.ok st.course ∧
    gpa_check p.gpa = Except.ok st.gpa := by
  unfold StudentModel.validate at hok
  cases hi : id_check genId p.idField <;>
    cases hn : name_check p.name <;>
      cases he : email_check p.email <;>
        cases hc : course_check p.course <;>
          cases hg : gpa_check p.gpa <;>
            rw [hi, hn, he, hc, hg] at hok <;>
              first
                | (injection hok with h; subst h; simp [hi, hn, he, hc, hg])
                | simp at hok

/-- A successful `id_check` yields a valid `ObjectId` hex string,
provided the service-generated default is one. -/
lemma id_check_ok_valid (genId : String) (o : Option String) (i : String)
    (hgen : ObjectId.is_valid genId = true)
    (h : id_check genId o = Except.ok i) : ObjectId.is_valid i = true := by
  cases o with
  | none => simp [id_check] at h; simpa [← h] using hgen
  | some s =>
      by_cases hs : ObjectId.is_valid s = true
      · simp [id_check, hs] at h; simpa [← h] using hs
      · simp [id_check, Bool.not_eq_true] at hs
        simp [id_check, hs] at h

/-- A successful `gpa_check` passes the payload's value through and that
value is at most 4. -/
lemma gpa_check_ok_inv (o : Option ℚ) (g : ℚ)
    (h : gpa_check o = Except.ok g) : o = some g ∧ g ≤ 4 := by
  cases o with
  | none => simp [gpa_check] at h
  | some x =>
      by_cases hx : x ≤ 4
      · simp [gpa_check, hx] at h; subst h; exact ⟨rfl, hx⟩
      · simp [gpa_check, hx] at h

/-- Looking up a freshly appended document finds exactly it. -/
lemma find_one_append_of_fresh (store : Store) (d : Document) (i : BsonId)
    (h : store.any (fun x => x.idField = some i) = false)
    (hd : d.idField = some i) :
    find_one (store ++ [d]) i = some d := by
  have hnone : store.find? (fun x => decide (x.idField = some i)) = none := by
    rw [List.find?_eq_none]
    intro x hx
    have := (List.any_eq_false.mp h) x hx
    simpa using this
  unfold find_one
  rw [List.find?_append, hnone]
  simp [List.find?, hd]

/-- On a fresh identifier, `insert_one` of a document that already
carries its `_id` succeeds, appends the document unchanged, and reports
that `_id` as the `inserted_id`. -/
lemma insert_one_fresh (store : Store) (storeGenId : String) (d : Document)
    (i : BsonId) (hd : d.idField = some i)
    (h : store.any (fun x => x.idField = some i) = false) :
    insert_one store storeGenId d = Except.ok (store ++ [d], i) := by
  unfold insert_one
  simp only [hd, Option.getD_some, h, Bool.false_eq_true, if_false]
  have : { d with idField := some i } = d := by
    cases d; simp_all
  simp [this]

/-- A payload whose gpa exceeds 4 always fails validation, with the
gpa bound violation among the reported field errors. -/
lemma validate_error_of_gpa_overflow (genId : String) (p : StudentPayload)
    (g : ℚ) (hgpa : p.gpa = some g) (hg : 4 < g) :
    StudentModel.validate genId p =
      Except.error (errsOf (id_check genId p.idField) ++ errsOf (name_check p.name) ++
        errsOf (email_check p.email) ++ errsOf (course_check p.course) ++
        [FieldError.gpa_gt_limit]) := by
  have hgc : gpa_check p.gpa = Except.error FieldError.gpa_gt_limit := by
    simp [gpa_check, hgpa, not_le.mpr hg]
  cases hi : id_check genId p.idField <;> cases hn : name_check p.name <;>
    cases he : email_check p.email <;> cases hc : course_check p.course <;>
      simp [StudentModel.validate, hi, hn, he, hc, hgc, errsOf]

/-! ### The claims -/

/-- C7 (confirmed): every handled request — health, greeting,
create-student, joke — increments the global total-requests counter by
exactly one and its own endpoint counter by exactly one, leaving the
other counters unchanged; and across any sequence of handled requests
every counter is monotonically non-decreasing. -/
theorem every_handler_increments_counters_once :
    ∀ (c : Counters) (store : Store) (storeGenId : String)
      (st : StudentModel) (u : UpstreamResponse),
      (health_check c).1 = { c with
          server_requests_total := c.server_requests_total + 1,
          healthcheck_requests_total := c.healthcheck_requests_total + 1 } ∧
      (read_main c).1 = { c with
          server_requests_total := c.server_requests_total + 1,
          main_requests_total := c.main_requests_total + 1 } ∧
      (create_student c store storeGenId st).counters = { c with
          server_requests_total := c.server_requests_total + 1,
          students_create_total := c.students_create_total + 1 } ∧
      (tell_joke c u).1 = { c with
          server_requests_total := c.server_requests_total + 1,
          joke_requests_total := c.joke_requests_total + 1 } ∧
      (∀ (s : ServerState) (reqs : List Request),
        Counters.le s.counters (run_requests s reqs).counters) := by
  intro c store storeGenId st u
  refine ⟨by simp [health_check], by simp [read_main], ?_, by simp [tell_joke],
    fun s reqs => run_requests_counters_le reqs s⟩
  cases h : insert_one store storeGenId (jsonable_encoder st) <;>
    simp [create_student, h]

/-- C8 (confirmed): the status code and response body of every endpoint
are independent of the current counter values — two runs on the same
input and store state that differ only in the counters produce identical
responses (and, for creation, identical stores). -/
theorem responses_independent_of_counters :
    ∀ (c c' : Counters) (store : Store) (genId storeGenId : String)
      (st : StudentModel) (p : StudentPayload) (u : UpstreamResponse),
      (health_check c).2 = (health_check c').2 ∧
      (read_main c).2 = (read_main c').2 ∧
      (create_student c store storeGenId st).outcome =
        (create_student c' store storeGenId st).outcome ∧
      (create_student c store storeGenId st).store =
        (create_student c' store storeGenId st).store ∧
      (handle_create c store genId storeGenId p).outcome =
        (handle_create c' store genId storeGenId p).outcome ∧
      (handle_create c store genId storeGenId p).store =
        (handle_create c' store genId storeGenId p).store ∧
      (tell_joke c u).2 = (tell_joke c' u).2 := by
  intro c c' store genId storeGenId st p u
  have hcs : ∀ (a b : Counters),
      (create_student a store storeGenId st).outcome =
        (create_student b store storeGenId st).outcome ∧
      (create_student a store storeGenId st).store =
        (create_student b store storeGenId st).store := by
    intro a b
    cases h : insert_one store storeGenId (jsonable_encoder st) <;>
      simp [create_student, h]
  have hhc : ∀ (a b : Counters),
      (handle_create a store genId storeGenId p).outcome =
        (handle_create b store genId storeGenId p).outcome ∧
      (handle_create a store genId storeGenId p).store =
        (handle_create b store genId storeGenId p).store := by
    intro a b
    cases hv : StudentModel.validate genId p with
    | error errs => simp [handle_create, hv]
    | ok stv =>
        cases h : insert_one store storeGenId (jsonable_encoder stv) <;>
          simp [handle_create, hv, create_student, h]
  exact ⟨rfl, rfl, (hcs c c').1, (hcs c c').2, (hhc c c').1, (hhc c c').2, rfl⟩

/-- C4 (code bug): the joke endpoint cannot behave as specified.  The
module never imports `requests`, so even on an invocation where the
upstream would answer 200 with non-empty setup and punchline the handler
raises `NameError: name 'requests' is not defined` (an unhandled fault)
instead of returning the joke body; `tell_joke_logic` records the
branching the body's lines would perform if the name were bound. -/
theorem tell_joke_always_raises_name_error :
    (tell_joke zeroCounters
        { status_code := 200, setup := "setup text", punchline := "punchline text" }).2 =
      Except.error (PyRuntimeError.nameError "requests") ∧
    tell_joke_logic
        { status_code := 200, setup := "setup text", punchline := "punchline text" } =
      (200, JokeBody.joke "setup text" "punchline text") ∧
    tell_joke_logic
        { status_code := 404, setup := "", punchline := "" } =
      (200, JokeBody.failed) := by
  refine ⟨rfl, by simp [tell_joke_logic], by simp [tell_joke_logic]⟩

/-- C2 (confirmed): the create-student handler encodes the validated
model, inserts it, re-reads the document by the `inserted_id` the insert
returned, and answers 201 whose body is exactly that re-read — i.e. the
document now persisted in the store, not the pre-insert payload. -/
theorem create_student_returns_persisted_document
    (c : Counters) (store : Store) (storeGenId : String) (st : StudentModel)
    (hfresh : store.any (fun d => d.idField = some (BsonId.str st.id)) = false) :
    (create_student c store storeGenId st).store = store ++ [jsonable_encoder st] ∧
    (create_student c store storeGenId st).outcome =
      CreateOutcome.created
        (find_one (create_student c store storeGenId st).store (BsonId.str st.id))
        (BsonId.str st.id) ∧
    find_one (create_student c store storeGenId st).store (BsonId.str st.id) =
      some (jsonable_encoder st) ∧
    CreateOutcome.status ((create_student c store storeGenId st).outcome) = 201 := by
  have hins := insert_one_fresh store storeGenId (jsonable_encoder st)
    (BsonId.str st.id) rfl hfresh
  have hfind := find_one_append_of_fresh store (jsonable_encoder st)
    (BsonId.str st.id) hfresh rfl
  refine ⟨?_, ?_, ?_, ?_⟩ <;>
    simp [create_student, hins, hfind, CreateOutcome.status]

/-- Witness for C2 at the repository's test vector: creating the test
student on an empty store persists exactly its encoded document and
answers it back with 201. -/
theorem create_student_returns_persisted_document_witness :
    (create_student zeroCounters [] storeOid janeModel).store =
      [] ++ [jsonable_encoder janeModel] ∧
    (create_student zeroCounters [] storeOid janeModel).outcome =
      CreateOutcome.created
        (find_one (create_student zeroCounters [] storeOid janeModel).store
          (BsonId.str janeModel.id))
        (BsonId.str janeModel.id) ∧
    find_one (create_student zeroCounters [] storeOid janeModel).store
        (BsonId.str janeModel.id) = some (jsonable_encoder janeModel) ∧
    CreateOutcome.status
        ((create_student zeroCounters [] storeOid janeModel).outcome) = 201 :=
  create_student_returns_persisted_document zeroCounters [] storeOid janeModel rfl

/-- C3 (confirmed): a payload whose gpa exceeds 4.0 is rejected with a
structured 422 validation error naming the gpa bound, before any store
interaction: the handler never runs, the store is unchanged and no
counter moves. -/
theorem gpa_above_limit_rejected_before_store
    (c : Counters) (store : Store) (genId storeGenId : String)
    (p : StudentPayload) (g : ℚ)
    (hgpa : p.gpa = some g) (hg : 4 < g) :
    ∃ errs,
      (handle_create c store genId storeGenId p).outcome =
        CreateOutcome.validationError errs ∧
      FieldError.gpa_gt_limit ∈ errs ∧
      CreateOutcome.status ((handle_create c store genId storeGenId p).outcome) = 422 ∧
      (handle_create c store genId storeGenId p).store = store ∧
      (handle_create c store genId storeGenId p).counters = c := by
  have hv := validate_error_of_gpa_overflow genId p g hgpa hg
  refine ⟨errsOf (id_check genId p.idField) ++ errsOf (name_check p.name) ++
      errsOf (email_check p.email) ++ errsOf (course_check p.course) ++
      [FieldError.gpa_gt_limit], ?_, ?_, ?_, ?_, ?_⟩ <;>
    simp [handle_create, hv, CreateOutcome.status]

/-- Witness for C3: a payload with gpa 4.5 is answered 422 with the gpa
error, and neither the empty store nor the zeroed counters change. -/
theorem gpa_above_limit_rejected_before_store_witness :
    ∃ errs,
      (handle_create zeroCounters [] testOid storeOid overGpaPayload).outcome =
        CreateOutcome.validationError errs ∧
      FieldError.gpa_gt_limit ∈ errs ∧
      CreateOutcome.status
        ((handle_create zeroCounters [] testOid storeOid overGpaPayload).outcome) = 422 ∧
      (handle_create zeroCounters [] testOid storeOid overGpaPayload).store = [] ∧
      (handle_create zeroCounters [] testOid storeOid overGpaPayload).counters =
        zeroCounters :=
  gpa_above_limit_rejected_before_store zeroCounters [] testOid storeOid
    overGpaPayload (9 / 2) rfl (by norm_num)

/-- C1 (confirmed): for every valid student payload — name, email and
course present, email matching the address grammar, gpa ≤ 4.0, `_id`
absent or a valid ObjectId token, and the resulting identifier fresh in
the store — creation answers 201 with a body whose name, email, course
and gpa equal the input fields and whose identifier is rendered as a
plain string: the `inserted_id` the store's insert reported, which is
the caller-supplied identifier whenever one was supplied. -/
theorem create_student_valid_payload_response
    (c : Counters) (store : Store) (genId storeGenId : String)
    (p : StudentPayload) (n e co : String) (g : ℚ)
    (hname : p.name = some n) (hemail : p.email = some e)
    (hcourse : p.course = some co) (hgpa : p.gpa = some g)
    (hev : email_valid e = true) (hg4 : g ≤ 4)
    (hid : ∀ s, p.idField = some s → ObjectId.is_valid s = true)
    (hfresh : store.any
      (fun d => d.idField = some (BsonId.str (p.idField.getD genId))) = false) :
    (handle_create c store genId storeGenId p).outcome =
      CreateOutcome.created
        (some { idField := some (BsonId.str (p.idField.getD genId)),
                name := n, email := e, course := co, gpa := g })
        (BsonId.str (p.idField.getD genId)) ∧
    CreateOutcome.status ((handle_create c store genId storeGenId p).outcome) = 201 ∧
    (∀ s, p.idField = some s → p.idField.getD genId = s) := by
  have hval := validate_ok_of_fields genId p n e co g hname hemail hcourse hgpa hev hg4 hid
  have hins := insert_one_fresh store storeGenId
    (jsonable_encoder
      { id := p.idField.getD genId, name := n, email := e, course := co, gpa := g })
    (BsonId.str (p.idField.getD genId)) rfl hfresh
  have hfind := find_one_append_of_fresh store
    (jsonable_encoder
      { id := p.idField.getD genId, name := n, email := e, course := co, gpa := g })
    (BsonId.str (p.idField.getD genId)) hfresh rfl
  simp only [jsonable_encoder] at hins hfind
  refine ⟨?_, ?_, ?_⟩
  · simp [handle_create, hval, create_student, jsonable_encoder, hins, hfind]
  · simp [handle_create, hval, create_student, jsonable_encoder, hins,
      CreateOutcome.status]
  · intro s hs; simp [hs]

/-- Witness for C1 at the repository's test payload on an empty store:
201 with exactly the input fields and the string identifier. -/
theorem create_student_valid_payload_response_witness :
    (handle_create zeroCounters [] testOid storeOid janePayload).outcome =
      CreateOutcome.created
        (some { idField := some (BsonId.str (janePayload.idField.getD testOid)),
                name := "Jane Doe", email := "jdoe@example.com",
                course := "Experiments, Science, and Fashion in Nanophotonics",
                gpa := 3 })
        (BsonId.str (janePayload.idField.getD testOid)) ∧
    CreateOutcome.status
      ((handle_create zeroCounters [] testOid storeOid janePayload).outcome) = 201 := by
  have h := create_student_valid_payload_response zeroCounters [] testOid storeOid
    janePayload "Jane Doe" "jdoe@example.com"
    "Experiments, Science, and Fashion in Nanophotonics" 3
    rfl rfl rfl rfl (by decide) (by norm_num)
    (fun s hs => by simp [janePayload] at hs) rfl
  exact ⟨h.1, h.2.1⟩

/-- C5 counterexample: posting the test payload (which omits `_id`)
while the service's default factory yields `testOid` persists a document
whose identifier is the service-generated string `testOid`; the value
the store's own generator would coin is irrelevant — two different store
generators produce the identical store — so the persisted identifier is
not store-generated, refuting the claim as stated. -/
theorem store_generated_identifier_counterexample :
    (handle_create zeroCounters [] testOid storeOid janePayload).store =
      [{ idField := some (BsonId.str testOid), name := "Jane Doe",
         email := "jdoe@example.com",
         course := "Experiments, Science, and Fashion in Nanophotonics",
         gpa := 3 }] ∧
    (handle_create zeroCounters [] testOid storeOid janePayload).store =
      (handle_create zeroCounters [] testOid "000000000000000000000000"
        janePayload).store ∧
    BsonId.str testOid ≠ BsonId.oid storeOid := by
  refine ⟨by decide, by decide, by simp⟩

/-- C5 (amended): when the payload omits the identifier it is generated
by the service — pydantic's `default_factory` — not by the store:
validation already fills in the service-generated id, the encoded
document reaches the insert carrying it, and the outcome is independent
of the id the store would generate; a caller-supplied identifier is used
exactly when it is a valid ObjectId token, and an invalid one fails
validation. -/
theorem identifier_service_generated_or_caller_supplied
    (c : Counters) (store : Store) (genId storeGenId storeGenId' : String)
    (p : StudentPayload) (n e co : String) (g : ℚ)
    (hname : p.name = some n) (hemail : p.email = some e)
    (hcourse : p.course = some co) (hgpa : p.gpa = some g)
    (hev : email_valid e = true) (hg4 : g ≤ 4) :
    (p.idField = none →
      StudentModel.validate genId p =
        Except.ok { id := genId, name := n, email := e, course := co, gpa := g } ∧
      (jsonable_encoder
          { id := genId, name := n, email := e, course := co, gpa := g }).idField =
        some (BsonId.str genId) ∧
      handle_create c store genId storeGenId p =
        handle_create c store genId storeGenId' p) ∧
    (∀ s, p.idField = some s → ObjectId.is_valid s = false →
      StudentModel.validate genId p =
        Except.error [FieldError.id_invalid_objectid]) ∧
    (∀ s, p.idField = some s → ObjectId.is_valid s = true →
      StudentModel.validate genId p =
        Except.ok { id := s, name := n, email := e, course := co, gpa := g }) := by
  refine ⟨?_, ?_, ?_⟩
  · intro hnone
    have hid : ∀ s, p.idField = some s → ObjectId.is_valid s = true := by
      intro s hs; rw [hnone] at hs; cases hs
    have hval := validate_ok_of_fields genId p n e co g hname hemail hcourse hgpa hev hg4 hid
    rw [hnone] at hval
    refine ⟨by simpa using hval, rfl, ?_⟩
    simp only [handle_create]
    rw [hval]
    simp [create_student, insert_one, jsonable_encoder]
  · intro s hs hbad
    simp [StudentModel.validate, id_check, name_check, email_check, course_check,
      gpa_check, hname, hemail, hcourse, hgpa, hev, hg4, hs, hbad, errsOf]
  · intro s hs hgood
    have hid : ∀ t, p.idField = some t → ObjectId.is_valid t = true := by
      intro t ht
      rw [hs] at ht
      injection ht with h
      subst h
      exact hgood
    have hval := validate_ok_of_fields genId p n e co g hname hemail hcourse hgpa hev hg4 hid
    rw [hs] at hval
    simpa using hval

/-- Witness for the amended C5 at the test payload: validation fills in
the service-generated identifier and the outcome ignores the store's
generator. -/
theorem identifier_service_generated_or_caller_supplied_witness :
    StudentModel.validate testOid janePayload = Except.ok janeModel ∧
    (jsonable_encoder janeModel).idField = some (BsonId.str testOid) ∧
    handle_create zeroCounters [] testOid storeOid janePayload =
      handle_create zeroCounters [] testOid "000000000000000000000000" janePayload := by
  have h := (identifier_service_generated_or_caller_supplied zeroCounters []
    testOid storeOid "000000000000000000000000" janePayload "Jane Doe"
    "jdoe@example.com" "Experiments, Science, and Fashion in Nanophotonics" 3
    rfl rfl rfl rfl (by decide) (by norm_num)).1 rfl
  exact h

/-- C6 counterexample: a payload whose name and course are both the
empty string passes validation — the claim that such payloads are
rejected is false on the code, which never checks non-emptiness. -/
theorem empty_name_course_accepted_counterexample :
    StudentModel.validate testOid emptyNameCoursePayload =
      Except.ok { id := testOid, name := "", email := "jdoe@example.com",
                  course := "", gpa := 3 } := rfl

/-- C6 (amended): name and course are required fields of string type,
but no non-emptiness constraint exists: any strings — the empty string
included — pass validation and are taken into the model unchanged. -/
theorem name_course_any_string_accepted
    (genId : String) (p : StudentPayload) (n e co : String) (g : ℚ)
    (hname : p.name = some n) (hemail : p.email = some e)
    (hcourse : p.course = some co) (hgpa : p.gpa = some g)
    (hev : email_valid e = true) (hg4 : g ≤ 4)
    (hid : ∀ s, p.idField = some s → ObjectId.is_valid s = true) :
    StudentModel.validate genId p =
      Except.ok { id := p.idField.getD genId, name := n, email := e,
                  course := co, gpa := g } :=
  validate_ok_of_fields genId p n e co g hname hemail hcourse hgpa hev hg4 hid

/-- Witness for the amended C6: the empty name is accepted verbatim. -/
theorem name_course_any_string_accepted_witness :
    StudentModel.validate testOid emptyNamePayload =
      Except.ok { id := testOid, name := "", email := "jdoe@example.com",
                  course := "Algorithms", gpa := 3 } := by
  simpa [emptyNamePayload] using
    name_course_any_string_accepted testOid emptyNamePayload ""
      "jdoe@example.com" "Algorithms" 3 rfl rfl rfl rfl (by decide) (by norm_num)
      (fun s hs => by simp [emptyNamePayload] at hs)

/-- C9 (confirmed): the document the create-student operation hands to
the store is the JSON-encoded validated model: its `_id` slot holds the
canonical 24-hexadecimal-character identifier as a plain string —
`BsonId.str`, never the native `BsonId.oid` — for caller-supplied and
service-generated identifiers alike, and the store persists exactly that
encoded document. -/
theorem inserted_document_is_string_id_encoding
    (c : Counters) (store : Store) (genId storeGenId : String)
    (p : StudentPayload) (st : StudentModel)
    (hgen : ObjectId.is_valid genId = true)
    (hok : StudentModel.validate genId p = Except.ok st)
    (hfresh : store.any (fun d => d.idField = some (BsonId.str st.id)) = false) :
    (jsonable_encoder st).idField = some (BsonId.str st.id) ∧
    ObjectId.is_valid st.id = true ∧
    st.id.length = 24 ∧
    insert_one store storeGenId (jsonable_encoder st) =
      Except.ok (store ++ [jsonable_encoder st], BsonId.str st.id) ∧
    (create_student c store storeGenId st).store = store ++ [jsonable_encoder st] := by
  have hv := (validate_ok_inv genId p st hok).1
  have hvalid := id_check_ok_valid genId p.idField st.id hgen hv
  have hlen : st.id.length = 24 := by
    have h24 := hvalid
    simp [ObjectId.is_valid] at h24
    exact h24.1
  have hins := insert_one_fresh store storeGenId (jsonable_encoder st)
    (BsonId.str st.id) rfl hfresh
  exact ⟨rfl, hvalid, hlen, hins, by simp [create_student, hins]⟩

/-- Witness for C9 at the test payload: the persisted `_id` is the
24-hex string the service generated, stored as a string. -/
theorem inserted_document_is_string_id_encoding_witness :
    (jsonable_encoder janeModel).idField = some (BsonId.str janeModel.id) ∧
    ObjectId.is_valid janeModel.id = true ∧
    janeModel.id.length = 24 ∧
    insert_one [] storeOid (jsonable_encoder janeModel) =
      Except.ok ([] ++ [jsonable_encoder janeModel], BsonId.str janeModel.id) ∧
    (create_student zeroCounters [] storeOid janeModel).store =
      [] ++ [jsonable_encoder janeModel] :=
  inserted_document_is_string_id_encoding zeroCounters [] testOid storeOid
    janePayload janeModel (by decide) rfl rfl

/-- C10 (confirmed): validation imposes no lower bound on gpa — for any
payload otherwise valid, every rational gpa ≤ 4.0, zero and arbitrarily
negative values included, is accepted and the document persists it
unchanged. -/
theorem gpa_lower_unbounded_accepted_and_persisted
    (c : Counters) (store : Store) (genId storeGenId : String)
    (p : StudentPayload) (n e co : String) (g : ℚ)
    (hname : p.name = some n) (hemail : p.email = some e)
    (hcourse : p.course = some co) (hgpa : p.gpa = some g)
    (hev : email_valid e = true) (hg4 : g ≤ 4)
    (hid : ∀ s, p.idField = some s → ObjectId.is_valid s = true)
    (hfresh : store.any
      (fun d => d.idField = some (BsonId.str (p.idField.getD genId))) = false) :
    StudentModel.validate genId p =
      Except.ok { id := p.idField.getD genId, name := n, email := e,
                  course := co, gpa := g } ∧
    (handle_create c store genId storeGenId p).store =
      store ++ [{ idField := some (BsonId.str (p.idField.getD genId)),
                  name := n, email := e, course := co, gpa := g }] := by
  have hval := validate_ok_of_fields genId p n e co g hname hemail hcourse hgpa hev hg4 hid
  have hins := insert_one_fresh store storeGenId
    (jsonable_encoder
      { id := p.idField.getD genId, name := n, email := e, course := co, gpa := g })
    (BsonId.str (p.idField.getD genId)) rfl hfresh
  simp only [jsonable_encoder] at hins
  refine ⟨hval, ?_⟩
  simp [handle_create, hval, create_student, jsonable_encoder, hins]

/-- Witness for C10: a gpa of -1000000 is accepted and persisted. -/
theorem gpa_lower_unbounded_accepted_and_persisted_witness :
    StudentModel.validate testOid negativeGpaPayload =
      Except.ok { id := testOid, name := "Jane Doe", email := "jdoe@example.com",
                  course := "Experiments, Science, and Fashion in Nanophotonics",
                  gpa := -1000000 } ∧
    (handle_create zeroCounters [] testOid storeOid negativeGpaPayload).store =
      [{ idField := some (BsonId.str testOid), name := "Jane Doe",
         email := "jdoe@example.com",
         course := "Experiments, Science, and Fashion in Nanophotonics",
         gpa := -1000000 }] := by
  simpa [negativeGpaPayload] using
    gpa_lower_unbounded_accepted_and_persisted zeroCounters [] testOid storeOid
      negativeGpaPayload "Jane Doe" "jdoe@example.com"
      "Experiments, Science, and Fashion in Nanophotonics" (-1000000)
      rfl rfl rfl rfl (by decide) (by norm_num)
      (fun s hs => by simp [negativeGpaPayload] at hs) rfl

end StudentApp
